import Mathlib

/-!
# Verification of the agentic-user-api request handler

A shallow embedding of the repository's Python sources:

* `src/api/auth.py` — identity extraction from the event envelope,
* `src/api/models.py` — the pydantic request/record models,
* `src/api/dynamodb_client.py` — the preferences repository (read / merge-upsert),
* `src/api/s3_client.py` — the image service (upload/download grants, delete,
  ownership validation),
* `src/api/user_handler.py` — the Lambda router.

External collaborators (the DynamoDB table, the S3 SDK, `json.loads`,
`urllib.parse.unquote`, `uuid.uuid4`) are modelled as explicit state and
oracle parameters: the table is a map from user id to stored item, and the
SDK/stdlib functions live in a `Deps` record.  Every S3 client invocation is
logged in a trace so that "the store is never invoked" is expressible.
-/

namespace AgenticUserApi

/-! ### Python string primitives -/

/-- Character-sequence prefix test: does the second list start with the
first? -/
def charsStartWith : List Char → List Char → Bool
  | [], _ => true
  | p :: ps, s =>
    match s with
    | [] => false
    | c :: cs => p == c && charsStartWith ps cs

/-- Python `s.startswith(p)`, as a prefix test on the character sequences. -/
def pyStartswith (s p : String) : Bool :=
  charsStartWith p.data s.data

/-- Python `s[n:]` for a nonnegative `n`: drop the first `n` characters. -/
def pyDrop (s : String) (n : Nat) : String :=
  ⟨s.data.drop n⟩

/-- Python `s.split(sep)` (no maxsplit), on character lists: always returns a
nonempty list of chunks, with empty chunks around adjacent separators. -/
def pySplit (sep : Char) : List Char → List (List Char)
  | [] => [[]]
  | c :: rest =>
    if c = sep then
      [] :: pySplit sep rest
    else
      match pySplit sep rest with
      | [] => [[c]]
      | h :: t => (c :: h) :: t

/-- Python `dict.get` on an association list of string attributes. -/
def assocGet (k : String) : List (String × String) → Option String
  | [] => none
  | (k2, v) :: rest => if k2 = k then some v else assocGet k rest

/-! ### JSON values (the shapes `json.loads` can produce) -/

inductive JVal where
  | jnull
  | jbool (b : Bool)
  | jnum (n : Int)
  | jstr (s : String)
  | jarr (elems : List JVal)
  | jobj (fields : List (String × JVal))

/-- Lookup of a field in a JSON object's field list. -/
def jlookup (k : String) : List (String × JVal) → Option JVal
  | [] => none
  | (k2, v) :: rest => if k2 = k then some v else jlookup k rest

/-- A raised Python exception: its class name and message. -/
structure PyErr where
  ty : String
  msg : String
  deriving DecidableEq

/-! ### `src/api/auth.py` -/

/-- The inbound API Gateway HTTP API v2 event, restricted to the parts the
handler reads.  `claims` is `requestContext.authorizer.jwt.claims`; a claim
chain missing at any level collapses to the empty claim list (each level
defaults to an empty dict in the source). -/
structure Event where
  method : String
  rawPath : String
  body : Option String
  claims : List (String × String)

/-- `get_user_id_from_event`: the `sub` claim, or `none` when absent. -/
def get_user_id_from_event (e : Event) : Option String :=
  assocGet "sub" e.claims

/-! ### `src/api/models.py` -/

/-- `UserPreferencesUpdate` together with pydantic's fields-set tracking
(`model_dump(exclude_unset=True)`): for each field, `none` means the field was
absent from the payload, `some none` means it was present as JSON null, and
`some (some v)` means it was present with string value `v`. -/
structure UserPreferencesUpdate where
  theme : Option (Option String) := none
  displayName : Option (Option String) := none
  displayPicture : Option (Option String) := none
  deriving DecidableEq

/-- `UserPreferences`: the full record, `user_id` plus three optional fields. -/
structure UserPreferences where
  user_id : String
  theme : Option String
  displayName : Option String
  displayPicture : Option String
  deriving DecidableEq

def validationErr (m : String) : PyErr := ⟨"ValidationError", m⟩

/-- pydantic validation of one `Optional[str]` field: absent is allowed,
null is allowed, a string is allowed (subject to `max_length` when given),
anything else raises ValidationError. -/
def readOptStrField (fields : List (String × JVal)) (name : String)
    (maxLen : Option Nat) : Except PyErr (Option (Option String)) :=
  match jlookup name fields with
  | none => .ok none
  | some .jnull => .ok (some none)
  | some (.jstr v) =>
    match maxLen with
    | none => .ok (some (some v))
    | some m =>
      if v.length ≤ m then .ok (some (some v))
      else .error (validationErr "string_too_long")
  | some _ => .error (validationErr "string_type")

/-- `UserPreferencesUpdate(**body)`: requires a JSON object; validates the
three optional fields (`displayName` carries `max_length=100`). -/
def UserPreferencesUpdate.ofJson : JVal → Except PyErr UserPreferencesUpdate
  | .jobj fields =>
    match readOptStrField fields "theme" none with
    | .error e => .error e
    | .ok th =>
      match readOptStrField fields "displayName" (some 100) with
      | .error e => .error e
      | .ok dn =>
        match readOptStrField fields "displayPicture" none with
        | .error e => .error e
        | .ok dp => .ok ⟨th, dn, dp⟩
  | _ => .error ⟨"TypeError", "argument after double-star must be a mapping"⟩

/-- `UploadUrlRequest`: both fields are required strings. -/
structure UploadUrlRequest where
  fileName : String
  contentType : String
  deriving DecidableEq

/-- pydantic validation of one required `str` field: missing raises
ValidationError, as does a non-string value. -/
def readReqStrField (fields : List (String × JVal)) (name : String) :
    Except PyErr String :=
  match jlookup name fields with
  | none => .error (validationErr "missing")
  | some (.jstr v) => .ok v
  | some _ => .error (validationErr "string_type")

/-- `UploadUrlRequest(**body)`. -/
def UploadUrlRequest.ofJson : JVal → Except PyErr UploadUrlRequest
  | .jobj fields =>
    match readReqStrField fields "fileName" with
    | .error e => .error e
    | .ok fn =>
      match readReqStrField fields "contentType" with
      | .error e => .error e
      | .ok ct => .ok ⟨fn, ct⟩
  | _ => .error ⟨"TypeError", "argument after double-star must be a mapping"⟩

/-! ### `src/api/dynamodb_client.py` -/

/-- A stored DynamoDB item: string attributes only (this table only ever
receives string fields; nulls are stripped before writing). -/
abbrev DynamoItem := List (String × String)

/-- The preferences table state: at most one item per `user_id` key. -/
abbrev PrefsTable := String → Option DynamoItem

/-- `PreferencesRepository.get_preferences`: `get_item` by key; `none` when the
item is absent; otherwise rebuild `UserPreferences` from the raw attributes
(`UserPreferences(**prefs)` raises if the stored item lacks `user_id`). -/
def get_preferences (table : PrefsTable) (user_id : String) :
    Except PyErr (Option UserPreferences) :=
  match table user_id with
  | none => .ok none
  | some raw =>
    match assocGet "user_id" raw with
    | none => .error (validationErr "user_id missing")
    | some uid =>
      .ok (some ⟨uid, assocGet "theme" raw, assocGet "displayName" raw,
                 assocGet "displayPicture" raw⟩)

/-- One step of the merge loop of `create_or_update_preferences`, per field:
a field absent from the update keeps the base value; an explicit null deletes
it; a non-null value overwrites it. -/
def mergeField (base : Option String) : Option (Option String) → Option String
  | none => base
  | some none => none
  | some (some v) => some v

/-- One optional attribute of the item written by `put_item` (nulls are
stripped, so a `none` field contributes no attribute). -/
def optEntry (k : String) : Option String → DynamoItem
  | none => []
  | some v => [(k, v)]

/-- The item written by `put_item`: `user_id` plus every non-null field. -/
def prefsToItem (p : UserPreferences) : DynamoItem :=
  ("user_id", p.user_id) ::
    (optEntry "theme" p.theme ++ optEntry "displayName" p.displayName ++
      optEntry "displayPicture" p.displayPicture)

/-- `PreferencesRepository.create_or_update_preferences`: read the existing
row (or start a fresh row keyed by `user_id`), merge the provided fields,
force `user_id`, strip nulls, write the item, and return the merged record
together with the updated table. -/
def create_or_update_preferences (table : PrefsTable) (user_id : String)
    (prefs_in : UserPreferencesUpdate) :
    Except PyErr (UserPreferences × PrefsTable) :=
  match get_preferences table user_id with
  | .error e => .error e
  | .ok existing =>
    let base : UserPreferences :=
      match existing with
      | some p => p
      | none => ⟨user_id, none, none, none⟩
    let merged : UserPreferences :=
      ⟨user_id,
       mergeField base.theme prefs_in.theme,
       mergeField base.displayName prefs_in.displayName,
       mergeField base.displayPicture prefs_in.displayPicture⟩
    let item := prefsToItem merged
    .ok (merged, fun k => if k = user_id then some item else table k)

/-! ### `src/api/s3_client.py` -/

/-- One call into the S3 client, recorded in a trace. -/
inductive S3Call where
  | presignPut (key contentType : String)
  | presignGet (key : String)
  | deleteObject (key : String)
  deriving DecidableEq

/-- The external collaborators, as oracles: the `uuid.uuid4()` token drawn for
this request, the presigned-URL builders of the SDK, whether `delete_object`
raises for a given key, `json.loads`, and `urllib.parse.unquote`. -/
structure Deps where
  uuid : String
  presignPutUrl : String → String → String
  presignGetUrl : String → String
  deleteRaises : String → Bool
  jsonLoads : String → Except PyErr JVal
  unquoteFn : String → String

/-- The extension computed by `generate_upload_url`:
`file_name.split(".")[-1] if "." in file_name else "jpg"`. -/
def file_extension (file_name : String) : String :=
  if '.' ∈ file_name.data then ⟨(pySplit '.' file_name.data).getLastD []⟩
  else "jpg"

/-- `S3ImageService.generate_upload_url`: a fresh key under the caller's
namespace, and a PUT-presigned URL for it; returns `(url, key)` and the
recorded SDK call. -/
def generate_upload_url (deps : Deps) (user_id file_name content_type : String) :
    (String × String) × List S3Call :=
  let s3_key :=
    "users/" ++ user_id ++ "/images/" ++ deps.uuid ++ "." ++
      file_extension file_name
  ((deps.presignPutUrl s3_key content_type, s3_key),
    [.presignPut s3_key content_type])

/-- `S3ImageService.generate_download_url`. -/
def generate_download_url (deps : Deps) (s3_key : String) :
    String × List S3Call :=
  (deps.presignGetUrl s3_key, [.presignGet s3_key])

/-- `S3ImageService.delete_image`: attempts the delete and converts any raise
into `false`. -/
def delete_image (deps : Deps) (s3_key : String) : Bool × List S3Call :=
  (!deps.deleteRaises s3_key, [.deleteObject s3_key])

/-- `S3ImageService.validate_user_owns_key`: a pure prefix check against
`users/{user_id}/`. -/
def validate_user_owns_key (s3_key user_id : String) : Bool :=
  pyStartswith s3_key ("users/" ++ user_id ++ "/")

/-! ### `src/api/user_handler.py` -/

/-- The response envelope built by `_response` (body kept structured; the
source serialises it with `json.dumps`). -/
structure Response where
  statusCode : Nat
  headers : List (String × String)
  body : JVal

def corsHeaders : List (String × String) :=
  [("Content-Type", "application/json"),
   ("Access-Control-Allow-Origin", "*"),
   ("Access-Control-Allow-Methods", "GET, POST, PUT, DELETE, OPTIONS"),
   ("Access-Control-Allow-Headers", "Content-Type, Authorization")]

def mkResponse (statusCode : Nat) (body : JVal) : Response :=
  ⟨statusCode, corsHeaders, body⟩

def msgBody (m : String) : JVal := .jobj [("message", .jstr m)]

def optStrToJ : Option String → JVal
  | none => .jnull
  | some v => .jstr v

/-- `prefs.model_dump(exclude=set([...]))` with the user id excluded. -/
def dumpPrefsNoUid (p : UserPreferences) : JVal :=
  .jobj [("theme", optStrToJ p.theme),
         ("displayName", optStrToJ p.displayName),
         ("displayPicture", optStrToJ p.displayPicture)]

/-- Rebuild a path from the remainder after the stage segment:
`path = "/" + path if path else "/"`. -/
def addLeadingSlash (t : String) : String :=
  if t = "" then "/" else "/" ++ t

/-- The stage-stripping step of the handler: for a raw path starting with
`/dev/`, `/prod/` or `/staging/`, keep `split("/", 2)` element 2 (everything
after the second slash) and re-prepend a slash; otherwise the raw path passes
through unchanged. -/
def stripStage (raw_path : String) : String :=
  if pyStartswith raw_path "/dev/" then addLeadingSlash (pyDrop raw_path 5)
  else if pyStartswith raw_path "/prod/" then addLeadingSlash (pyDrop raw_path 6)
  else if pyStartswith raw_path "/staging/" then addLeadingSlash (pyDrop raw_path 9)
  else raw_path

/-- The JSON text of an empty object (the default body text). -/
def emptyJsonText : String := "\x7b\x7d"

/-- Python `event.get("body") or "..."`: a missing body, and also an empty
(falsy) body string, fall back to the empty JSON object text. -/
def bodyOrEmptyObj (e : Event) : String :=
  match e.body with
  | none => emptyJsonText
  | some b => if b = "" then emptyJsonText else b

/-- The body of the `try` block of `lambda_handler`, after the path has been
normalised: preflight short-circuit, authentication, then the five routes.
Returns the response together with the resulting table state and the trace of
S3 client calls; raised exceptions propagate as `Except.error`. -/
def handleRouted (deps : Deps) (table : PrefsTable) (method path : String)
    (event : Event) : Except PyErr (Response × PrefsTable × List S3Call) :=
  if method = "OPTIONS" then
    .ok (mkResponse 200 (.jobj []), table, [])
  else
    match get_user_id_from_event event with
    | none => .ok (mkResponse 401 (msgBody "Unauthorized"), table, [])
    | some user_id =>
      if user_id = "" then
        .ok (mkResponse 401 (msgBody "Unauthorized"), table, [])
      else if path = "/user/preferences" ∧ method = "GET" then
        -- user_handler.py line 83 invokes `get_all_preferences` on the
        -- repository, but dynamodb_client.py defines no such method, so the
        -- attribute lookup raises before the table is ever read.
        .error ⟨"AttributeError",
          "PreferencesRepository object has no attribute get_all_preferences"⟩
      else if path = "/user/preferences" ∧ method = "PUT" then
        match deps.jsonLoads (bodyOrEmptyObj event) with
        | .error e => .error e
        | .ok j =>
          match UserPreferencesUpdate.ofJson j with
          | .error e => .error e
          | .ok prefs_in =>
            match create_or_update_preferences table user_id prefs_in with
            | .error e => .error e
            | .ok r => .ok (mkResponse 200 (dumpPrefsNoUid r.1), r.2, [])
      else if path = "/upload-url" ∧ method = "POST" then
        match deps.jsonLoads (bodyOrEmptyObj event) with
        | .error e => .error e
        | .ok j =>
          match UploadUrlRequest.ofJson j with
          | .error e => .error e
          | .ok upload_req =>
            let r := generate_upload_url deps user_id upload_req.fileName
              upload_req.contentType
            .ok (mkResponse 200 (.jobj [("uploadUrl", .jstr r.1.1),
              ("key", .jstr r.1.2)]), table, r.2)
      else if pyStartswith path "/download-url/" ∧ method = "GET" then
        let s3_key := deps.unquoteFn (pyDrop path 14)
        if !validate_user_owns_key s3_key user_id then
          .ok (mkResponse 403
            (msgBody "Forbidden: You don\x27t own this image"), table, [])
        else
          let r := generate_download_url deps s3_key
          .ok (mkResponse 200 (.jobj [("downloadUrl", .jstr r.1)]), table, r.2)
      else if pyStartswith path "/delete-image/" ∧ method = "DELETE" then
        let s3_key := deps.unquoteFn (pyDrop path 14)
        if !validate_user_owns_key s3_key user_id then
          .ok (mkResponse 403
            (msgBody "Forbidden: You don\x27t own this image"), table, [])
        else
          let r := delete_image deps s3_key
          if r.1 then .ok (mkResponse 204 (.jobj []), table, r.2)
          else .ok (mkResponse 500 (msgBody "Failed to delete image"), table, r.2)
      else
        .ok (mkResponse 404 (msgBody "Not found"), table, [])

/-- The overall handler result: response, table state after the request, and
the trace of S3 client calls made while handling it. -/
structure HandlerResult where
  response : Response
  table : PrefsTable
  s3Calls : List S3Call

/-- The catch-all error envelope of the top-level `except` block. -/
def errResponse (e : PyErr) : Response :=
  mkResponse 500 (.jobj [("message", .jstr "Internal Server Error"),
                         ("error", .jstr e.ty), ("details", .jstr e.msg)])

/-- `lambda_handler`: normalise the path, run the routed body, and convert any
raised exception into the 500 diagnostic envelope.  (On every raising path of
the source the exception occurs before any table write or S3 call, so the
caught branch leaves the table unchanged with an empty trace.) -/
def lambda_handler (deps : Deps) (table : PrefsTable) (event : Event) :
    HandlerResult :=
  match handleRouted deps table event.method (stripStage event.rawPath) event with
  | .ok r => ⟨r.1, r.2.1, r.2.2⟩
  | .error e => ⟨errResponse e, table, []⟩

/-! ## Helper lemmas -/

theorem charsStartWith_iff (p s : List Char) :
    charsStartWith p s = true ↔ ∃ t, s = p ++ t := by
  induction p generalizing s with
  | nil => simp [charsStartWith]
  | cons a as ih =>
    cases s with
    | nil => simp [charsStartWith]
    | cons b bs =>
      simp only [charsStartWith, Bool.and_eq_true, beq_iff_eq, ih,
        List.cons_append, List.cons.injEq]
      constructor
      · rintro ⟨hab, t, ht⟩
        exact ⟨t, hab.symm, ht⟩
      · rintro ⟨t, hba, ht⟩
        exact ⟨hba.symm, t, ht⟩

theorem pyStartswith_iff (s p : String) :
    pyStartswith s p = true ↔ ∃ r : String, s = p ++ r := by
  unfold pyStartswith
  rw [charsStartWith_iff]
  constructor
  · rintro ⟨t, ht⟩
    exact ⟨⟨t⟩, String.ext ht⟩
  · rintro ⟨r, hr⟩
    exact ⟨r.data, by rw [hr]; rfl⟩

/-! ## Concrete fixtures used by closed theorems and witnesses -/

/-- The empty preferences table. -/
def table0 : PrefsTable := fun _ => none

/-- A concrete dependency record whose `json.loads` raises on every body. -/
def depsBadJson : Deps :=
  ⟨"11111111-1111-1111-1111-111111111111",
   fun key _ => "https://bucket/put/" ++ key,
   fun key => "https://bucket/get/" ++ key,
   fun _ => false,
   fun _ => .error ⟨"JSONDecodeError", "Expecting value"⟩,
   fun s => s⟩

/-- A concrete dependency record whose `json.loads` returns the empty JSON
object for every body. -/
def depsEmptyObj : Deps :=
  ⟨"22222222-2222-2222-2222-222222222222",
   fun key _ => "https://bucket/put/" ++ key,
   fun key => "https://bucket/get/" ++ key,
   fun _ => false,
   fun _ => .ok (.jobj []),
   fun s => s⟩

/-! ## C3 — ownership validation -/

/-- C3: for every key `k` and subject `s`, `validate_user_owns_key k s` is true
iff `k` starts with the literal string `users/` + `s` + `/` (that is, `k` is
that prefix followed by some remainder); in particular a key under
`users/abc2/` is not owned by subject `abc`. -/
theorem c3_owns_iff :
    (∀ k s : String, validate_user_owns_key k s = true ↔
      ∃ rest : String, k = ("users/" ++ s ++ "/") ++ rest) ∧
    validate_user_owns_key "users/abc2/images/pic.png" "abc" = false := by
  constructor
  · intro k s
    unfold validate_user_owns_key
    exact pyStartswith_iff k ("users/" ++ s ++ "/")
  · rfl

/-! ## C4 — missing subject identifier -/

/-- C4: for every request whose method is not `OPTIONS` and from which no
subject identifier resolves, the handler returns 401 with the unauthorized
message, the table is untouched and no S3 call is made. -/
theorem c4_unauthenticated_401 (deps : Deps) (table : PrefsTable) (event : Event)
    (hm : event.method ≠ "OPTIONS")
    (hid : get_user_id_from_event event = none) :
    (lambda_handler deps table event).response.statusCode = 401 ∧
    (lambda_handler deps table event).response.body = msgBody "Unauthorized" ∧
    (lambda_handler deps table event).table = table ∧
    (lambda_handler deps table event).s3Calls = [] := by
  have h : lambda_handler deps table event =
      ⟨mkResponse 401 (msgBody "Unauthorized"), table, []⟩ := by
    unfold lambda_handler handleRouted
    rw [if_neg hm, hid]
  rw [h]
  exact ⟨rfl, rfl, rfl, rfl⟩

/-- Witness for C4 at a concrete unauthenticated GET request. -/
theorem c4_unauthenticated_401_witness :
    (Event.mk "GET" "/user/preferences" none []).method ≠ "OPTIONS" ∧
    get_user_id_from_event ⟨"GET", "/user/preferences", none, []⟩ = none ∧
    (lambda_handler depsBadJson table0
      ⟨"GET", "/user/preferences", none, []⟩).response.statusCode = 401 :=
  ⟨by decide, rfl,
    (c4_unauthenticated_401 depsBadJson table0
      ⟨"GET", "/user/preferences", none, []⟩ (by decide) rfl).1⟩

/-! ## C10 — empty-string subject is rejected -/

/-- C10: a request whose authorization context resolves the `sub` claim to the
empty string is treated as unauthenticated: 401, no table change, no S3 call
(the truthiness test rejects falsy identifiers, not only absent ones). -/
theorem c10_empty_sub_401 (deps : Deps) (table : PrefsTable) (event : Event)
    (hm : event.method ≠ "OPTIONS")
    (hid : get_user_id_from_event event = some "") :
    (lambda_handler deps table event).response.statusCode = 401 ∧
    (lambda_handler deps table event).response.body = msgBody "Unauthorized" ∧
    (lambda_handler deps table event).table = table ∧
    (lambda_handler deps table event).s3Calls = [] := by
  have h : lambda_handler deps table event =
      ⟨mkResponse 401 (msgBody "Unauthorized"), table, []⟩ := by
    unfold lambda_handler handleRouted
    rw [if_neg hm, hid]
    rfl
  rw [h]
  exact ⟨rfl, rfl, rfl, rfl⟩

/-- Witness for C10 at a concrete request carrying an empty `sub` claim. -/
theorem c10_empty_sub_401_witness :
    (Event.mk "GET" "/user/preferences" none [("sub", "")]).method ≠ "OPTIONS" ∧
    get_user_id_from_event ⟨"GET", "/user/preferences", none, [("sub", "")]⟩ =
      some "" ∧
    (lambda_handler depsBadJson table0
      ⟨"GET", "/user/preferences", none, [("sub", "")]⟩).response.statusCode = 401 :=
  ⟨by decide, rfl,
    (c10_empty_sub_401 depsBadJson table0
      ⟨"GET", "/user/preferences", none, [("sub", "")]⟩ (by decide) rfl).1⟩

/-! ## C1 — GET preferences is broken in the code -/

/-- C1 (code bug): an authenticated GET of the preferences path for a subject
with no stored row should return 200 with the all-null record, but
user_handler.py line 83 invokes `get_all_preferences`, a method
`PreferencesRepository` does not define, so the request raises AttributeError
and the top-level catch converts it into the 500 diagnostic envelope — never
200 and never the defaulted body. -/
theorem c1_get_preferences_raises :
    table0 "u1" = none ∧
    (lambda_handler depsBadJson table0
      ⟨"GET", "/user/preferences", none, [("sub", "u1")]⟩).response =
      errResponse ⟨"AttributeError",
        "PreferencesRepository object has no attribute get_all_preferences"⟩ ∧
    (lambda_handler depsBadJson table0
      ⟨"GET", "/user/preferences", none, [("sub", "u1")]⟩).response.statusCode =
      500 ∧
    (lambda_handler depsBadJson table0
      ⟨"GET", "/user/preferences", none, [("sub", "u1")]⟩).response.statusCode ≠
      200 :=
  ⟨rfl, rfl, rfl, by decide⟩

/-! ## C2 — validation failures yield 500, not 400 -/

/-- C2 counterexample: an authenticated PUT of the preferences path with a
malformed JSON body, and an authenticated POST of the upload-url path whose
body is the empty object (so `fileName` is missing), both produce status 500
— the claimed 400 never occurs. -/
theorem c2_counterexample :
    (lambda_handler depsBadJson table0
      ⟨"PUT", "/user/preferences", some "not json",
        [("sub", "u1")]⟩).response.statusCode = 500 ∧
    (lambda_handler depsBadJson table0
      ⟨"PUT", "/user/preferences", some "not json",
        [("sub", "u1")]⟩).response.statusCode ≠ 400 ∧
    (lambda_handler depsEmptyObj table0
      ⟨"POST", "/upload-url", some emptyJsonText,
        [("sub", "u1")]⟩).response.statusCode = 500 ∧
    (lambda_handler depsEmptyObj table0
      ⟨"POST", "/upload-url", some emptyJsonText,
        [("sub", "u1")]⟩).response.statusCode ≠ 400 :=
  ⟨rfl, by decide, rfl, by decide⟩

theorem readReqStrField_error_ty (fields : List (String × JVal)) (name : String)
    (e : PyErr) (h : readReqStrField fields name = .error e) :
    e.ty = "ValidationError" := by
  unfold readReqStrField at h
  split at h
  · injection h with h2
    rw [← h2]
    rfl
  · exact Except.noConfusion h
  · injection h with h2
    rw [← h2]
    rfl

theorem uploadReq_ofJson_missing (fields : List (String × JVal))
    (h : jlookup "fileName" fields = none ∨ jlookup "contentType" fields = none) :
    ∃ d, UploadUrlRequest.ofJson (.jobj fields) =
      .error ⟨"ValidationError", d⟩ := by
  cases hf : readReqStrField fields "fileName" with
  | error e =>
    refine ⟨e.msg, ?_⟩
    have hty := readReqStrField_error_ty fields "fileName" e hf
    cases e
    simp_all [UploadUrlRequest.ofJson]
  | ok fn =>
    rcases h with h | h
    · exfalso
      unfold readReqStrField at hf
      rw [h] at hf
      exact Except.noConfusion hf
    · refine ⟨"missing", ?_⟩
      have hct : readReqStrField fields "contentType" =
          .error ⟨"ValidationError", "missing"⟩ := by
        unfold readReqStrField
        rw [h]
        rfl
      simp [UploadUrlRequest.ofJson, hf, hct]

/-- C2 (amended): an authenticated PUT of the preferences path whose body is
malformed JSON, and an authenticated POST of the upload-url path whose body is
missing `fileName` or `contentType`, are not returned as 400: the exception
reaches the top-level catch and the handler returns status 500 with the
diagnostic envelope (JSONDecodeError resp. ValidationError). -/
theorem c2_validation_failures_are_500 :
    (∀ (deps : Deps) (table : PrefsTable) (event : Event) (u : String)
        (err : PyErr),
      event.method = "PUT" → stripStage event.rawPath = "/user/preferences" →
      get_user_id_from_event event = some u → u ≠ "" →
      deps.jsonLoads (bodyOrEmptyObj event) = .error err →
      (lambda_handler deps table event).response = errResponse err ∧
      (lambda_handler deps table event).response.statusCode = 500) ∧
    (∀ (deps : Deps) (table : PrefsTable) (event : Event) (u : String)
        (fields : List (String × JVal)),
      event.method = "POST" → stripStage event.rawPath = "/upload-url" →
      get_user_id_from_event event = some u → u ≠ "" →
      deps.jsonLoads (bodyOrEmptyObj event) = .ok (.jobj fields) →
      (jlookup "fileName" fields = none ∨ jlookup "contentType" fields = none) →
      ∃ d, (lambda_handler deps table event).response =
          errResponse ⟨"ValidationError", d⟩ ∧
        (lambda_handler deps table event).response.statusCode = 500) := by
  constructor
  · intro deps table event u err hmeth hpath hid hu hjson
    have h : lambda_handler deps table event = ⟨errResponse err, table, []⟩ := by
      simp [lambda_handler, handleRouted, hmeth, hpath, hid, hu, hjson]
    rw [h]
    exact ⟨rfl, rfl⟩
  · intro deps table event u fields hmeth hpath hid hu hjson hmiss
    obtain ⟨d, hof⟩ := uploadReq_ofJson_missing fields hmiss
    refine ⟨d, ?_⟩
    have h : lambda_handler deps table event =
        ⟨errResponse ⟨"ValidationError", d⟩, table, []⟩ := by
      simp [lambda_handler, handleRouted, hmeth, hpath, hid, hu, hjson, hof]
    rw [h]
    exact ⟨rfl, rfl⟩

/-- Witness for C2 (amended), at a concrete malformed PUT body. -/
theorem c2_validation_failures_are_500_witness :
    ("u1" : String) ≠ "" ∧
    depsBadJson.jsonLoads (bodyOrEmptyObj
      ⟨"PUT", "/user/preferences", some "not json", [("sub", "u1")]⟩) =
      .error ⟨"JSONDecodeError", "Expecting value"⟩ ∧
    (lambda_handler depsBadJson table0
      ⟨"PUT", "/user/preferences", some "not json",
        [("sub", "u1")]⟩).response.statusCode = 500 :=
  ⟨by decide, rfl,
    (c2_validation_failures_are_500.1 depsBadJson table0
      ⟨"PUT", "/user/preferences", some "not json", [("sub", "u1")]⟩ "u1"
      ⟨"JSONDecodeError", "Expecting value"⟩ rfl rfl rfl (by decide) rfl).2⟩

/-! ## C9 — stage-prefix stripping -/

/-- True iff `s` is one of the stage names the handler recognises. -/
def recognizedStage (s : String) : Bool :=
  s == "dev" || s == "prod" || s == "staging"

/-- The first segment of a slash-led path: the characters between the leading
slash and the next slash (or the end of the path). -/
def firstSegment (p : String) : String :=
  ⟨(p.data.drop 1).takeWhile (fun c => c != '/')⟩

/-- C9 counterexample: the raw path `/dev` has first segment `dev`, a
recognised stage name, yet the handler routes it unchanged instead of
dropping that segment — stripping only fires on `/dev/` with the slash. -/
theorem c9_counterexample :
    recognizedStage (firstSegment "/dev") = true ∧
    stripStage "/dev" = "/dev" ∧
    ("/dev" : String) ≠ "/" ∧ ("/dev" : String) ≠ "" :=
  ⟨rfl, rfl, by decide, by decide⟩

/-- C9 (amended): a raw path whose first segment is a recognised stage name
followed by a further slash is normalised by dropping that segment (yielding
the slash-led remainder, or `/` when nothing remains); a slash-led path whose
first segment is not recognised — and likewise a bare `/dev`-style path with
no second slash — is routed unchanged; `/dev/user/preferences` and
`/user/preferences` dispatch identically. -/
theorem c9_stage_stripping :
    (∀ rest : String,
      stripStage ("/dev/" ++ rest) = addLeadingSlash rest ∧
      stripStage ("/prod/" ++ rest) = addLeadingSlash rest ∧
      stripStage ("/staging/" ++ rest) = addLeadingSlash rest) ∧
    (stripStage "/dev" = "/dev" ∧ stripStage "/prod" = "/prod" ∧
      stripStage "/staging" = "/staging") ∧
    (∀ p : String, pyStartswith p "/" = true →
      recognizedStage (firstSegment p) = false → stripStage p = p) ∧
    (∀ (deps : Deps) (table : PrefsTable) (m : String) (b : Option String)
        (c : List (String × String)),
      lambda_handler deps table ⟨m, "/dev/user/preferences", b, c⟩ =
      lambda_handler deps table ⟨m, "/user/preferences", b, c⟩) := by
  refine ⟨?_, ⟨rfl, rfl, rfl⟩, ?_, fun deps table m b c => rfl⟩
  · intro rest
    refine ⟨?_, ?_, ?_⟩
    · simp [stripStage,
        show pyStartswith ("/dev/" ++ rest) "/dev/" = true from rfl,
        show pyDrop ("/dev/" ++ rest) 5 = rest from String.ext rfl]
    · simp [stripStage,
        show pyStartswith ("/prod/" ++ rest) "/dev/" = false from rfl,
        show pyStartswith ("/prod/" ++ rest) "/prod/" = true from rfl,
        show pyDrop ("/prod/" ++ rest) 6 = rest from String.ext rfl]
    · simp [stripStage,
        show pyStartswith ("/staging/" ++ rest) "/dev/" = false from rfl,
        show pyStartswith ("/staging/" ++ rest) "/prod/" = false from rfl,
        show pyStartswith ("/staging/" ++ rest) "/staging/" = true from rfl,
        show pyDrop ("/staging/" ++ rest) 9 = rest from String.ext rfl]
  intro p _hslash hseg
  have hdev : pyStartswith p "/dev/" = false := by
    cases hdev : pyStartswith p "/dev/" with
    | false => rfl
    | true =>
      obtain ⟨r, hr⟩ := (pyStartswith_iff p "/dev/").mp hdev
      subst hr
      rw [show firstSegment ("/dev/" ++ r) = "dev" from rfl] at hseg
      exact absurd hseg (by decide)
  have hprod : pyStartswith p "/prod/" = false := by
    cases hprod : pyStartswith p "/prod/" with
    | false => rfl
    | true =>
      obtain ⟨r, hr⟩ := (pyStartswith_iff p "/prod/").mp hprod
      subst hr
      rw [show firstSegment ("/prod/" ++ r) = "prod" from rfl] at hseg
      exact absurd hseg (by decide)
  have hstag : pyStartswith p "/staging/" = false := by
    cases hstag : pyStartswith p "/staging/" with
    | false => rfl
    | true =>
      obtain ⟨r, hr⟩ := (pyStartswith_iff p "/staging/").mp hstag
      subst hr
      rw [show firstSegment ("/staging/" ++ r) = "staging" from rfl] at hseg
      exact absurd hseg (by decide)
  simp [stripStage, hdev, hprod, hstag]

/-- Witness for C9 (amended), at a concrete unrecognised first segment. -/
theorem c9_stage_stripping_witness :
    pyStartswith "/other/user/preferences" "/" = true ∧
    recognizedStage (firstSegment "/other/user/preferences") = false ∧
    stripStage "/other/user/preferences" = "/other/user/preferences" :=
  ⟨rfl, rfl, c9_stage_stripping.2.2.1 "/other/user/preferences" rfl rfl⟩

/-! ## C7 — unowned keys are rejected before any store call -/

/-- C7: an authenticated download-url GET, and an authenticated delete-image
DELETE, whose extracted key (the percent-decoded remainder of the path after
the fixed route marker) is not owned by the caller, return status 403 with the
forbidden message, leave the table unchanged and make no S3 client call at
all — no download grant is issued and no delete is performed. -/
theorem c7_not_owner_403 :
    (∀ (deps : Deps) (table : PrefsTable) (event : Event) (u : String),
      event.method = "GET" →
      pyStartswith (stripStage event.rawPath) "/download-url/" = true →
      get_user_id_from_event event = some u → u ≠ "" →
      validate_user_owns_key
        (deps.unquoteFn (pyDrop (stripStage event.rawPath) 14)) u = false →
      (lambda_handler deps table event).response.statusCode = 403 ∧
      (lambda_handler deps table event).response.body =
        msgBody "Forbidden: You don\x27t own this image" ∧
      (lambda_handler deps table event).table = table ∧
      (lambda_handler deps table event).s3Calls = []) ∧
    (∀ (deps : Deps) (table : PrefsTable) (event : Event) (u : String),
      event.method = "DELETE" →
      pyStartswith (stripStage event.rawPath) "/delete-image/" = true →
      get_user_id_from_event event = some u → u ≠ "" →
      validate_user_owns_key
        (deps.unquoteFn (pyDrop (stripStage event.rawPath) 14)) u = false →
      (lambda_handler deps table event).response.statusCode = 403 ∧
      (lambda_handler deps table event).response.body =
        msgBody "Forbidden: You don\x27t own this image" ∧
      (lambda_handler deps table event).table = table ∧
      (lambda_handler deps table event).s3Calls = []) := by
  constructor
  · intro deps table event u hmeth hpre hid hu hown
    have hp : stripStage event.rawPath ≠ "/user/preferences" := by
      intro hp
      rw [hp] at hpre
      exact absurd hpre (by decide)
    have h : lambda_handler deps table event =
        ⟨mkResponse 403 (msgBody "Forbidden: You don\x27t own this image"),
          table, []⟩ := by
      simp [lambda_handler, handleRouted, hmeth, hid, hu, hp, hpre, hown]
    rw [h]
    exact ⟨rfl, rfl, rfl, rfl⟩
  · intro deps table event u hmeth hpre hid hu hown
    have h : lambda_handler deps table event =
        ⟨mkResponse 403 (msgBody "Forbidden: You don\x27t own this image"),
          table, []⟩ := by
      simp [lambda_handler, handleRouted, hmeth, hid, hu, hpre, hown]
    rw [h]
    exact ⟨rfl, rfl, rfl, rfl⟩

/-- Witness for C7 at a concrete download request for another user's key. -/
theorem c7_not_owner_403_witness :
    ("u1" : String) ≠ "" ∧
    validate_user_owns_key
      (depsBadJson.unquoteFn (pyDrop (stripStage
        "/download-url/users/other/images/a.png") 14)) "u1" = false ∧
    (lambda_handler depsBadJson table0
      ⟨"GET", "/download-url/users/other/images/a.png", none,
        [("sub", "u1")]⟩).response.statusCode = 403 ∧
    (lambda_handler depsBadJson table0
      ⟨"GET", "/download-url/users/other/images/a.png", none,
        [("sub", "u1")]⟩).s3Calls = [] :=
  ⟨by decide, rfl,
    (c7_not_owner_403.1 depsBadJson table0
      ⟨"GET", "/download-url/users/other/images/a.png", none, [("sub", "u1")]⟩
      "u1" rfl rfl rfl (by decide) rfl).1,
    (c7_not_owner_403.1 depsBadJson table0
      ⟨"GET", "/download-url/users/other/images/a.png", none, [("sub", "u1")]⟩
      "u1" rfl rfl rfl (by decide) rfl).2.2.2⟩

/-! ## Preferences-merge helper lemmas (shared by C5 and C8) -/

theorem assocGet_prefsToItem_user_id (p : UserPreferences) :
    assocGet "user_id" (prefsToItem p) = some p.user_id := rfl

theorem assocGet_prefsToItem_theme (p : UserPreferences) :
    assocGet "theme" (prefsToItem p) = p.theme := by
  obtain ⟨uid, th, dn, dp⟩ := p
  cases th <;> cases dn <;> cases dp <;> rfl

theorem assocGet_prefsToItem_displayName (p : UserPreferences) :
    assocGet "displayName" (prefsToItem p) = p.displayName := by
  obtain ⟨uid, th, dn, dp⟩ := p
  cases th <;> cases dn <;> cases dp <;> rfl

theorem assocGet_prefsToItem_displayPicture (p : UserPreferences) :
    assocGet "displayPicture" (prefsToItem p) = p.displayPicture := by
  obtain ⟨uid, th, dn, dp⟩ := p
  cases th <;> cases dn <;> cases dp <;> rfl

/-- Reading back the row just written by the upsert yields the merged record
(the stored item determines the record exactly: absent attribute = unset). -/
theorem get_preferences_put (table : PrefsTable) (s : String)
    (m : UserPreferences) :
    get_preferences
      (fun k => if k = s then some (prefsToItem m) else table k) s =
      .ok (some m) := by
  unfold get_preferences
  simp [assocGet_prefsToItem_user_id, assocGet_prefsToItem_theme,
    assocGet_prefsToItem_displayName, assocGet_prefsToItem_displayPicture]

/-- The record produced by the merge step of `create_or_update_preferences`:
the existing row (or a fresh row keyed by the subject), updated
field-by-field, with the subject id forced. -/
def mergeRecord (s : String) (ex : Option UserPreferences)
    (u : UserPreferencesUpdate) : UserPreferences :=
  ⟨s,
   mergeField ((ex.getD ⟨s, none, none, none⟩).theme) u.theme,
   mergeField ((ex.getD ⟨s, none, none, none⟩).displayName) u.displayName,
   mergeField ((ex.getD ⟨s, none, none, none⟩).displayPicture) u.displayPicture⟩

/-- Successful upsert, in closed form: it returns the merged record and writes
its null-stripped item under the subject key. -/
theorem create_or_update_ok (table : PrefsTable) (s : String)
    (u : UserPreferencesUpdate) (ex : Option UserPreferences)
    (hget : get_preferences table s = .ok ex) :
    create_or_update_preferences table s u =
      .ok (mergeRecord s ex u,
           fun k => if k = s then some (prefsToItem (mergeRecord s ex u))
                    else table k) := by
  unfold create_or_update_preferences
  rw [hget]
  cases ex <;> rfl

theorem mergeField_idem (base : Option String) (f : Option (Option String))
    (hf : f ≠ some none) :
    mergeField (mergeField base f) f = mergeField base f := by
  cases f with
  | none => rfl
  | some o =>
    cases o with
    | none => exact absurd rfl hf
    | some v => rfl

/-! ## C5 — merge semantics of the upsert -/

/-- C5: for every subject, prior state and partial update, the upsert starts
from the existing row (or a fresh row keyed by the subject), sets every field
provided with a non-null value, removes every field provided as explicit
null, leaves unprovided fields at the base value, forces the subject id, and
persists an item carrying exactly the non-null fields (an absent attribute —
never a null one — encodes an unset field). -/
theorem c5_merge_semantics (table : PrefsTable) (s : String)
    (upd : UserPreferencesUpdate) (ex : Option UserPreferences)
    (hget : get_preferences table s = .ok ex) :
    ∃ (m : UserPreferences) (t2 : PrefsTable),
      create_or_update_preferences table s upd = .ok (m, t2) ∧
      (∀ v, upd.theme = some (some v) → m.theme = some v) ∧
      (upd.theme = some none → m.theme = none) ∧
      (upd.theme = none → m.theme = ex.bind fun p => p.theme) ∧
      (∀ v, upd.displayName = some (some v) → m.displayName = some v) ∧
      (upd.displayName = some none → m.displayName = none) ∧
      (upd.displayName = none →
        m.displayName = ex.bind fun p => p.displayName) ∧
      (∀ v, upd.displayPicture = some (some v) → m.displayPicture = some v) ∧
      (upd.displayPicture = some none → m.displayPicture = none) ∧
      (upd.displayPicture = none →
        m.displayPicture = ex.bind fun p => p.displayPicture) ∧
      m.user_id = s ∧
      t2 s = some (prefsToItem m) ∧
      assocGet "user_id" (prefsToItem m) = some s ∧
      assocGet "theme" (prefsToItem m) = m.theme ∧
      assocGet "displayName" (prefsToItem m) = m.displayName ∧
      assocGet "displayPicture" (prefsToItem m) = m.displayPicture := by
  refine ⟨mergeRecord s ex upd, _, create_or_update_ok table s upd ex hget,
    ?_, ?_, ?_, ?_, ?_, ?_, ?_, ?_, ?_, rfl, by simp,
    assocGet_prefsToItem_user_id _, assocGet_prefsToItem_theme _,
    assocGet_prefsToItem_displayName _, assocGet_prefsToItem_displayPicture _⟩
  · intro v hv
    simp [mergeRecord, mergeField, hv]
  · intro hv
    simp [mergeRecord, mergeField, hv]
  · intro hv
    cases ex <;> simp [mergeRecord, mergeField, hv]
  · intro v hv
    simp [mergeRecord, mergeField, hv]
  · intro hv
    simp [mergeRecord, mergeField, hv]
  · intro hv
    cases ex <;> simp [mergeRecord, mergeField, hv]
  · intro v hv
    simp [mergeRecord, mergeField, hv]
  · intro hv
    simp [mergeRecord, mergeField, hv]
  · intro hv
    cases ex <;> simp [mergeRecord, mergeField, hv]

/-- Witness for C5 at the spec's example: existing row with theme `dark` and
displayName `Bob`, updated with an explicit-null theme, yields displayName
`Bob` with theme absent (not null) in record and stored item. -/
theorem c5_merge_semantics_witness :
    get_preferences
      (fun k => if k = "s0" then
        some [("user_id", "s0"), ("theme", "dark"), ("displayName", "Bob")]
        else none) "s0" = .ok (some ⟨"s0", some "dark", some "Bob", none⟩) ∧
    ∃ (m : UserPreferences) (t2 : PrefsTable),
      create_or_update_preferences
        (fun k => if k = "s0" then
          some [("user_id", "s0"), ("theme", "dark"), ("displayName", "Bob")]
          else none) "s0" ⟨some none, none, none⟩ = .ok (m, t2) ∧
      m.theme = none ∧ m.displayName = some "Bob" ∧ m.displayPicture = none ∧
      m.user_id = "s0" ∧ t2 "s0" = some (prefsToItem m) ∧
      assocGet "theme" (prefsToItem m) = none := by
  refine ⟨rfl, ?_⟩
  obtain ⟨m, t2, hcu, _, hclear, _, _, _, hdnkeep, _, _, hdpkeep, huid, hts,
      _, hith, _, _⟩ :=
    c5_merge_semantics
      (fun k => if k = "s0" then
        some [("user_id", "s0"), ("theme", "dark"), ("displayName", "Bob")]
        else none) "s0" ⟨some none, none, none⟩
      (some ⟨"s0", some "dark", some "Bob", none⟩) rfl
  refine ⟨m, t2, hcu, hclear rfl, hdnkeep rfl, hdpkeep rfl, huid, hts,
    (hith.trans (hclear rfl))⟩

/-! ## C8 — idempotence of the upsert for non-null updates -/

/-- C8: for an update all of whose provided fields carry non-null values,
applying the upsert twice returns the same record and leaves the same table
as applying it once. -/
theorem c8_upsert_idempotent (table : PrefsTable) (s : String)
    (u : UserPreferencesUpdate)
    (hth : u.theme ≠ some none) (hdn : u.displayName ≠ some none)
    (hdp : u.displayPicture ≠ some none)
    (m1 : UserPreferences) (t1 : PrefsTable)
    (h1 : create_or_update_preferences table s u = .ok (m1, t1)) :
    create_or_update_preferences t1 s u = .ok (m1, t1) := by
  cases hget : get_preferences table s with
  | error e =>
    rw [create_or_update_preferences, hget] at h1
    exact Except.noConfusion h1
  | ok ex =>
    rw [create_or_update_ok table s u ex hget] at h1
    have h2 := Except.ok.inj h1
    injection h2 with hm ht
    subst hm
    subst ht
    rw [create_or_update_ok _ s u (some (mergeRecord s ex u))
      (get_preferences_put table s (mergeRecord s ex u))]
    have hMM : mergeRecord s (some (mergeRecord s ex u)) u =
        mergeRecord s ex u := by
      unfold mergeRecord
      dsimp only [Option.getD_some]
      rw [mergeField_idem _ _ hth, mergeField_idem _ _ hdn,
        mergeField_idem _ _ hdp]
    rw [hMM]
    have hTT : (fun k => if k = s then some (prefsToItem (mergeRecord s ex u))
          else if k = s then some (prefsToItem (mergeRecord s ex u))
          else table k) =
        fun k => if k = s then some (prefsToItem (mergeRecord s ex u))
          else table k := by
      funext k
      by_cases hk : k = s <;> simp [hk]
    rw [hTT]

/-- Witness for C8 at a concrete non-null theme update over the empty
table. -/
theorem c8_upsert_idempotent_witness :
    ((⟨some (some "dark"), none, none⟩ : UserPreferencesUpdate).theme ≠
      some none) ∧
    ((⟨some (some "dark"), none, none⟩ : UserPreferencesUpdate).displayName ≠
      some none) ∧
    ((⟨some (some "dark"), none, none⟩ :
      UserPreferencesUpdate).displayPicture ≠ some none) ∧
    create_or_update_preferences
      (fun k => if k = "u1"
        then some (prefsToItem ⟨"u1", some "dark", none, none⟩) else none)
      "u1" ⟨some (some "dark"), none, none⟩ =
      .ok (⟨"u1", some "dark", none, none⟩,
        fun k => if k = "u1"
          then some (prefsToItem ⟨"u1", some "dark", none, none⟩) else none) :=
  ⟨by decide, by decide, by decide,
    c8_upsert_idempotent table0 "u1" ⟨some (some "dark"), none, none⟩
      (by decide) (by decide) (by decide)
      ⟨"u1", some "dark", none, none⟩
      (fun k => if k = "u1"
        then some (prefsToItem ⟨"u1", some "dark", none, none⟩) else none)
      rfl⟩

/-! ## C6 — upload key derivation -/

theorem data_append (a b : String) : (a ++ b).data = a.data ++ b.data := rfl

theorem pySplit_ne_nil (sep : Char) (l : List Char) : pySplit sep l ≠ [] := by
  cases l with
  | nil => simp [pySplit]
  | cons c rest =>
    simp only [pySplit]
    split
    · simp
    · split <;> simp

/-- The last chunk of a Python split never contains the separator; when the
separator occurs in the list, that chunk is exactly the suffix after the last
occurrence (and there are at least two chunks); otherwise the split is the
single whole list. -/
theorem pySplit_spec (sep : Char) (l : List Char) :
    ∃ last, (pySplit sep l).getLast? = some last ∧ sep ∉ last ∧
      ((sep ∈ l ∧ 2 ≤ (pySplit sep l).length ∧
          ∃ pre, l = pre ++ sep :: last) ∨
        (sep ∉ l ∧ pySplit sep l = [l])) := by
  induction l with
  | nil => exact ⟨[], rfl, by simp, Or.inr ⟨by simp, rfl⟩⟩
  | cons c rest ih =>
    obtain ⟨last, hlast, hns, hcase⟩ := ih
    obtain ⟨x, xs, hx⟩ := List.exists_cons_of_ne_nil (pySplit_ne_nil sep rest)
    by_cases hc : c = sep
    · subst hc
      have hsplit : pySplit c (c :: rest) = [] :: pySplit c rest := by
        simp [pySplit]
      refine ⟨last, ?_, hns, Or.inl ⟨by simp, ?_, ?_⟩⟩
      · rw [hsplit, hx, List.getLast?_cons_cons, ← hx]
        exact hlast
      · rw [hsplit, hx]
        simp only [List.length_cons]
        omega
      · rcases hcase with ⟨_, _, pre, hpre⟩ | ⟨_, hsp⟩
        · exact ⟨c :: pre, by rw [hpre]; rfl⟩
        · rw [hsp] at hlast
          simp only [List.getLast?_singleton, Option.some.injEq] at hlast
          exact ⟨[], by rw [← hlast]; rfl⟩
    · have hsplit : pySplit sep (c :: rest) = (c :: x) :: xs := by
        simp [pySplit, hc, hx]
      rcases hcase with ⟨hmem, hlen, pre, hpre⟩ | ⟨hnm, hsp⟩
      · have hxs : xs ≠ [] := by
          intro h
          rw [hx, h] at hlen
          simp at hlen
        obtain ⟨y, ys, hys⟩ := List.exists_cons_of_ne_nil hxs
        subst hys
        rw [hx, List.getLast?_cons_cons] at hlast
        refine ⟨last, ?_, hns, Or.inl ⟨by simp [hmem], ?_, ?_⟩⟩
        · rw [hsplit, List.getLast?_cons_cons]
          exact hlast
        · rw [hsplit]
          simp only [List.length_cons]
          omega
        · exact ⟨c :: pre, by rw [hpre]; rfl⟩
      · rw [hsp] at hx
        injection hx with hx1 hx2
        have hcr : sep ∉ c :: rest := by
          intro hmem
          rcases List.mem_cons.mp hmem with h | h
          · exact hc h.symm
          · exact hnm h
        have hsplit2 : pySplit sep (c :: rest) = [c :: rest] := by
          rw [hsplit, ← hx1, ← hx2]
        exact ⟨c :: rest, by rw [hsplit2]; simp, hcr, Or.inr ⟨hcr, hsplit2⟩⟩

/-- Characterisation of the extension computed by `generate_upload_url`: with
no dot in the file name it is `jpg`; with a dot, the file name is some stem
followed by a dot and the extension, and the extension contains no dot (so it
is the suffix after the last dot). -/
theorem file_extension_spec (f : String) :
    ('.' ∉ f.data → file_extension f = "jpg") ∧
    ('.' ∈ f.data → (∃ stem : String,
        f = stem ++ "." ++ file_extension f) ∧
      '.' ∉ (file_extension f).data) := by
  constructor
  · intro h
    unfold file_extension
    rw [if_neg h]
  · intro h
    obtain ⟨last, hlast, hns, hcase⟩ := pySplit_spec '.' f.data
    have hext : file_extension f = ⟨last⟩ := by
      unfold file_extension
      rw [if_pos h]
      rw [List.getLastD_eq_getLast?, hlast]
      rfl
    rcases hcase with ⟨_, _, pre, hpre⟩ | ⟨hnm, _⟩
    · refine ⟨⟨⟨pre⟩, ?_⟩, ?_⟩
      · apply String.ext
        rw [hext, hpre, data_append, data_append]
        simp
      · rw [hext]
        exact hns
    · exact absurd h hnm

/-- C6: the key issued by `generate_upload_url` is exactly
`users/{subject}/images/{token}.{extension}`, where the extension is the
suffix of the file name after its last dot when the name contains a dot (the
rest of the name being the stem before that dot), and `jpg` otherwise; in
particular `photo.PNG` keeps extension `PNG`. -/
theorem c6_upload_key_pattern (deps : Deps)
    (user_id file_name content_type : String) :
    (generate_upload_url deps user_id file_name content_type).1.2 =
      "users/" ++ user_id ++ "/images/" ++ deps.uuid ++ "." ++
        file_extension file_name ∧
    ('.' ∈ file_name.data → (∃ stem : String,
        file_name = stem ++ "." ++ file_extension file_name) ∧
      '.' ∉ (file_extension file_name).data) ∧
    ('.' ∉ file_name.data → file_extension file_name = "jpg") ∧
    file_extension "photo.PNG" = "PNG" :=
  ⟨rfl, (file_extension_spec file_name).2, (file_extension_spec file_name).1,
    rfl⟩

/-- Witness for C6 at the file name `photo.PNG`. -/
theorem c6_upload_key_pattern_witness :
    ('.' ∈ ("photo.PNG" : String).data) ∧
    (∃ stem : String, ("photo.PNG" : String) =
      stem ++ "." ++ file_extension "photo.PNG") ∧
    '.' ∉ (file_extension "photo.PNG").data :=
  ⟨by decide,
    ((c6_upload_key_pattern depsBadJson "u1" "photo.PNG" "image/png").2.1
      (by decide)).1,
    ((c6_upload_key_pattern depsBadJson "u1" "photo.PNG" "image/png").2.1
      (by decide)).2⟩

/-- Witness for C3: a key directly under the caller's namespace is owned. -/
theorem c3_owns_iff_witness :
    validate_user_owns_key "users/u1/images/a.png" "u1" = true :=
  (c3_owns_iff.1 "users/u1/images/a.png" "u1").mpr ⟨"images/a.png", rfl⟩

end AgenticUserApi
